import Mathlib

/-!
Verification development for the C platform-shim layer of the gio repository:
the Wayland listener shim (`app/internal/window/os_wayland.c` and the two
header declarations `app/internal/window/os_wayland.h`,
`ui/app/os_wayland.h`) and the Android JNI bridge
(`app/internal/window/os_android.c`).

The C code is shallowly embedded: each `gio_*` function becomes a Lean
function over explicit data (opaque pointers become an inductive `Ptr`,
C structs of function pointers become Lean structures of `Option Handler`
where an unset designated-initializer field is `none`, i.e. NULL).
Components whose implementation lives outside the provided sources (the Go
event handlers exported through `_cgo_export.h`) are modelled from the
specification and marked as such in their doc comments.
-/

/-- An opaque C pointer value: either NULL or some address. -/
inductive Ptr
  | null
  | addr (n : Nat)
deriving DecidableEq, Repr

/-- The twelve Wayland listener-shim entry points declared by the
`os_wayland.h` headers and defined in `os_wayland.c`, one constructor per
`gio_*_add_listener` function. -/
inductive Shim
  | registry
  | surface
  | xdgSurface
  | xdgToplevel
  | xdgWmBase
  | callback
  | output
  | seat
  | pointer
  | touch
  | keyboard
  | textInput
deriving DecidableEq, Repr

/-- Signature table of `src/app/internal/window/os_wayland.h`: `true` when
the declared `gio_*_add_listener` prototype carries a `void *data`
parameter. In that header every prototype carries one. -/
def headerInternalTakesData : Shim → Bool := fun _ => true

/-- Signature table of `src/ui/app/os_wayland.h`: `true` when the declared
prototype carries a `void *data` parameter. Only
`gio_wl_callback_add_listener` does. -/
def headerUiTakesData : Shim → Bool
  | .callback => true
  | _ => false

/-- Signature table of the definitions in
`src/app/internal/window/os_wayland.c`: `true` when the defined function
takes a `void *data` parameter. Only `gio_wl_callback_add_listener` does. -/
def implTakesData : Shim → Bool
  | .callback => true
  | _ => false

/-! Each `gio_*_add_listener` definition in `os_wayland.c`, reduced to the
observable that matters for the user-data claims: the `data` argument the
function passes to the underlying `wl_*_add_listener` call. Functions whose
C signature has no `data` parameter are constants. -/

/-- `os_wayland.c:17`: `wl_registry_add_listener(reg, &registry_listener, NULL)`. -/
def gio_wl_registry_add_listener : Ptr := .null

/-- `os_wayland.c:23`: `wl_surface_add_listener(surface, &surface_listener, NULL)`. -/
def gio_wl_surface_add_listener : Ptr := .null

/-- `os_wayland.c:31`: `xdg_surface_add_listener(surface, &xdg_surface_listener, NULL)`. -/
def gio_xdg_surface_add_listener : Ptr := .null

/-- `os_wayland.c:40`: `xdg_toplevel_add_listener(toplevel, &xdg_toplevel_listener, NULL)`. -/
def gio_xdg_toplevel_add_listener : Ptr := .null

/-- `os_wayland.c:51`: `xdg_wm_base_add_listener(wm, &xdg_wm_base_listener, NULL)`. -/
def gio_xdg_wm_base_add_listener : Ptr := .null

/-- `os_wayland.c:59`: `wl_callback_add_listener(callback, &wl_callback_listener, data)` —
the one shim that forwards its caller-supplied `data` pointer. -/
def gio_wl_callback_add_listener (data : Ptr) : Ptr := data

/-- `os_wayland.c:71`: `wl_output_add_listener(output, &wl_output_listener, NULL)`. -/
def gio_wl_output_add_listener : Ptr := .null

/-- `os_wayland.c:81`: `wl_seat_add_listener(seat, &wl_seat_listener, NULL)`. -/
def gio_wl_seat_add_listener : Ptr := .null

/-- `os_wayland.c:97`: `wl_pointer_add_listener(pointer, &wl_pointer_listener, NULL)`. -/
def gio_wl_pointer_add_listener : Ptr := .null

/-- `os_wayland.c:109`: `wl_touch_add_listener(touch, &wl_touch_listener, NULL)`. -/
def gio_wl_touch_add_listener : Ptr := .null

/-- `os_wayland.c:122`: `wl_keyboard_add_listener(keyboard, &wl_keyboard_listener, NULL)`. -/
def gio_wl_keyboard_add_listener : Ptr := .null

/-- `os_wayland.c:136`: `zwp_text_input_v3_add_listener(im, &zwp_text_input_v3_listener, NULL)`. -/
def gio_zwp_text_input_v3_add_listener : Ptr := .null

/-- The user-data pointer that shim `s` forwards to the underlying
`wl_*_add_listener` call when the caller supplies `callerData`. For shims
whose C signature has no `data` parameter (everything but the frame
callback) the caller cannot supply anything and NULL is registered. -/
def implForwardedData (s : Shim) (callerData : Ptr) : Ptr :=
  match s with
  | .registry => gio_wl_registry_add_listener
  | .surface => gio_wl_surface_add_listener
  | .xdgSurface => gio_xdg_surface_add_listener
  | .xdgToplevel => gio_xdg_toplevel_add_listener
  | .xdgWmBase => gio_xdg_wm_base_add_listener
  | .callback => gio_wl_callback_add_listener callerData
  | .output => gio_wl_output_add_listener
  | .seat => gio_wl_seat_add_listener
  | .pointer => gio_wl_pointer_add_listener
  | .touch => gio_wl_touch_add_listener
  | .keyboard => gio_wl_keyboard_add_listener
  | .textInput => gio_zwp_text_input_v3_add_listener

/-! ### Listener tables

Each `static const struct wl_*_listener` at file scope in `os_wayland.c` is
embedded as a Lean structure whose fields are the callback slots of the
corresponding listener struct (at the protocol versions the code binds:
`wl_pointer` through `axis_discrete`, `wl_touch` without shape/orientation,
`wl_output` through `scale`). A field holds `some h` when the source's
designated initializer sets it to handler `h`, and defaults to `none`
because C zero-initializes unnamed members to NULL. -/

/-- The handler functions installed in the listener tables: the Go-exported
`gio_on*` callbacks from `_cgo_export.h` plus the local C ping handler. -/
inductive Handler
  | gio_onRegistryGlobal
  | gio_onRegistryGlobalRemove
  | gio_onSurfaceEnter
  | gio_onSurfaceLeave
  | gio_onXdgSurfaceConfigure
  | gio_onToplevelConfigure
  | gio_onToplevelClose
  | xdg_wm_base_handle_ping_fn
  | gio_onFrameDone
  | gio_onOutputGeometry
  | gio_onOutputMode
  | gio_onOutputDone
  | gio_onOutputScale
  | gio_onSeatCapabilities
  | gio_onSeatName
  | gio_onPointerEnter
  | gio_onPointerLeave
  | gio_onPointerMotion
  | gio_onPointerButton
  | gio_onPointerAxis
  | gio_onPointerFrame
  | gio_onPointerAxisSource
  | gio_onPointerAxisStop
  | gio_onPointerAxisDiscrete
  | gio_onTouchDown
  | gio_onTouchUp
  | gio_onTouchMotion
  | gio_onTouchFrame
  | gio_onTouchCancel
  | gio_onKeyboardKeymap
  | gio_onKeyboardEnter
  | gio_onKeyboardLeave
  | gio_onKeyboardKey
  | gio_onKeyboardModifiers
  | gio_onKeyboardRepeatInfo
  | gio_onTextInputEnter
  | gio_onTextInputLeave
  | gio_onTextInputPreeditString
  | gio_onTextInputCommitString
  | gio_onTextInputDeleteSurroundingText
  | gio_onTextInputDone
deriving DecidableEq, Repr

structure WlRegistryListener where
  global : Option Handler := none
  global_remove : Option Handler := none
deriving DecidableEq, Repr

structure WlSurfaceListener where
  enter : Option Handler := none
  leave : Option Handler := none
deriving DecidableEq, Repr

structure XdgSurfaceListener where
  configure : Option Handler := none
deriving DecidableEq, Repr

structure XdgToplevelListener where
  configure : Option Handler := none
  close : Option Handler := none
deriving DecidableEq, Repr

structure XdgWmBaseListener where
  ping : Option Handler := none
deriving DecidableEq, Repr

structure WlCallbackListener where
  done : Option Handler := none
deriving DecidableEq, Repr

structure WlOutputListener where
  geometry : Option Handler := none
  mode : Option Handler := none
  done : Option Handler := none
  scale : Option Handler := none
deriving DecidableEq, Repr

structure WlSeatListener where
  capabilities : Option Handler := none
  name : Option Handler := none
deriving DecidableEq, Repr

structure WlPointerListener where
  enter : Option Handler := none
  leave : Option Handler := none
  motion : Option Handler := none
  button : Option Handler := none
  axis : Option Handler := none
  frame : Option Handler := none
  axis_source : Option Handler := none
  axis_stop : Option Handler := none
  axis_discrete : Option Handler := none
deriving DecidableEq, Repr

structure WlTouchListener where
  down : Option Handler := none
  up : Option Handler := none
  motion : Option Handler := none
  frame : Option Handler := none
  cancel : Option Handler := none
deriving DecidableEq, Repr

structure WlKeyboardListener where
  keymap : Option Handler := none
  enter : Option Handler := none
  leave : Option Handler := none
  key : Option Handler := none
  modifiers : Option Handler := none
  repeat_info : Option Handler := none
deriving DecidableEq, Repr

structure ZwpTextInputV3Listener where
  enter : Option Handler := none
  leave : Option Handler := none
  preedit_string : Option Handler := none
  commit_string : Option Handler := none
  delete_surrounding_text : Option Handler := none
  done : Option Handler := none
deriving DecidableEq, Repr

/-- `os_wayland.c:11` (the const-cast on `.global` changes the C type, not
the installed handler). -/
def registry_listener : WlRegistryListener :=
  { global := some .gio_onRegistryGlobal
    global_remove := some .gio_onRegistryGlobalRemove }

/-- `os_wayland.c:21`. -/
def surface_listener : WlSurfaceListener :=
  { enter := some .gio_onSurfaceEnter
    leave := some .gio_onSurfaceLeave }

/-- `os_wayland.c:27`. -/
def xdg_surface_listener : XdgSurfaceListener :=
  { configure := some .gio_onXdgSurfaceConfigure }

/-- `os_wayland.c:35`. -/
def xdg_toplevel_listener : XdgToplevelListener :=
  { configure := some .gio_onToplevelConfigure
    close := some .gio_onToplevelClose }

/-- `os_wayland.c:47`. -/
def xdg_wm_base_listener : XdgWmBaseListener :=
  { ping := some .xdg_wm_base_handle_ping_fn }

/-- `os_wayland.c:55`. -/
def wl_callback_listener : WlCallbackListener :=
  { done := some .gio_onFrameDone }

/-- `os_wayland.c:63`. -/
def wl_output_listener : WlOutputListener :=
  { geometry := some .gio_onOutputGeometry
    mode := some .gio_onOutputMode
    done := some .gio_onOutputDone
    scale := some .gio_onOutputScale }

/-- `os_wayland.c:75`. -/
def wl_seat_listener : WlSeatListener :=
  { capabilities := some .gio_onSeatCapabilities
    name := some .gio_onSeatName }

/-- `os_wayland.c:85`. -/
def wl_pointer_listener : WlPointerListener :=
  { enter := some .gio_onPointerEnter
    leave := some .gio_onPointerLeave
    motion := some .gio_onPointerMotion
    button := some .gio_onPointerButton
    axis := some .gio_onPointerAxis
    frame := some .gio_onPointerFrame
    axis_source := some .gio_onPointerAxisSource
    axis_stop := some .gio_onPointerAxisStop
    axis_discrete := some .gio_onPointerAxisDiscrete }

/-- `os_wayland.c:101`. -/
def wl_touch_listener : WlTouchListener :=
  { down := some .gio_onTouchDown
    up := some .gio_onTouchUp
    motion := some .gio_onTouchMotion
    frame := some .gio_onTouchFrame
    cancel := some .gio_onTouchCancel }

/-- `os_wayland.c:113`. -/
def wl_keyboard_listener : WlKeyboardListener :=
  { keymap := some .gio_onKeyboardKeymap
    enter := some .gio_onKeyboardEnter
    leave := some .gio_onKeyboardLeave
    key := some .gio_onKeyboardKey
    modifiers := some .gio_onKeyboardModifiers
    repeat_info := some .gio_onKeyboardRepeatInfo }

/-- `os_wayland.c:126`. -/
def zwp_text_input_v3_listener : ZwpTextInputV3Listener :=
  { enter := some .gio_onTextInputEnter
    leave := some .gio_onTextInputLeave
    preedit_string := some .gio_onTextInputPreeditString
    commit_string := some .gio_onTextInputCommitString
    delete_surrounding_text := some .gio_onTextInputDeleteSurroundingText
    done := some .gio_onTextInputDone }

/-- All callback slots of each listener table, flattened per interface,
in declaration order. A `none` entry would be a NULL function pointer. -/
def listenerSlots (s : Shim) : List (Option Handler) :=
  match s with
  | .registry => [registry_listener.global, registry_listener.global_remove]
  | .surface => [surface_listener.enter, surface_listener.leave]
  | .xdgSurface => [xdg_surface_listener.configure]
  | .xdgToplevel => [xdg_toplevel_listener.configure, xdg_toplevel_listener.close]
  | .xdgWmBase => [xdg_wm_base_listener.ping]
  | .callback => [wl_callback_listener.done]
  | .output => [wl_output_listener.geometry, wl_output_listener.mode,
      wl_output_listener.done, wl_output_listener.scale]
  | .seat => [wl_seat_listener.capabilities, wl_seat_listener.name]
  | .pointer => [wl_pointer_listener.enter, wl_pointer_listener.leave,
      wl_pointer_listener.motion, wl_pointer_listener.button,
      wl_pointer_listener.axis, wl_pointer_listener.frame,
      wl_pointer_listener.axis_source, wl_pointer_listener.axis_stop,
      wl_pointer_listener.axis_discrete]
  | .touch => [wl_touch_listener.down, wl_touch_listener.up,
      wl_touch_listener.motion, wl_touch_listener.frame,
      wl_touch_listener.cancel]
  | .keyboard => [wl_keyboard_listener.keymap, wl_keyboard_listener.enter,
      wl_keyboard_listener.leave, wl_keyboard_listener.key,
      wl_keyboard_listener.modifiers, wl_keyboard_listener.repeat_info]
  | .textInput => [zwp_text_input_v3_listener.enter,
      zwp_text_input_v3_listener.leave,
      zwp_text_input_v3_listener.preedit_string,
      zwp_text_input_v3_listener.commit_string,
      zwp_text_input_v3_listener.delete_surrounding_text,
      zwp_text_input_v3_listener.done]

/-! ### The xdg_wm_base ping handler (`os_wayland.c:44`) -/

/-- A Wayland protocol request the shim can issue. The only request any
handler in `os_wayland.c` issues is `xdg_wm_base_pong`. -/
inductive Request
  | xdg_wm_base_pong (serial : Nat)
deriving DecidableEq, Repr

/-- `os_wayland.c:44`: the body is the single statement
`xdg_wm_base_pong(wm, serial);`. The handler is polymorphic in the
ambient state `σ` (it touches none of it) and returns the list of
protocol requests it issues. -/
def xdg_wm_base_handle_ping (σ : Type) (st : σ) (serial : Nat) :
    σ × List Request :=
  (st, [Request.xdg_wm_base_pong serial])

/-! ### Pointer axis frame accumulation -/

/-- A scroll axis of `wl_pointer` axis events. -/
inductive Axis
  | vertical
  | horizontal
deriving DecidableEq, Repr

/-- Per-axis accumulator inside one pointer frame: the continuous value in
`wl_fixed` units (1/256) summed from `axis` events, and the optional
discrete notch count summed from `axis_discrete` events. -/
structure AxisAccum where
  continuous : Int
  discrete : Option Int
deriving DecidableEq, Repr

/-- Accumulator for one pointer frame, one slot per scroll axis. -/
structure PointerFrameAccum where
  vert : AxisAccum
  horiz : AxisAccum
deriving DecidableEq, Repr

def emptyAxisAccum : AxisAccum := { continuous := 0, discrete := none }

def emptyPointerFrameAccum : PointerFrameAccum :=
  { vert := emptyAxisAccum, horiz := emptyAxisAccum }

def PointerFrameAccum.getAxis (f : PointerFrameAccum) : Axis → AxisAccum
  | .vertical => f.vert
  | .horizontal => f.horiz

def PointerFrameAccum.setAxis (f : PointerFrameAccum) (a : Axis)
    (v : AxisAccum) : PointerFrameAccum :=
  match a with
  | .vertical => { f with vert := v }
  | .horizontal => { f with horiz := v }

/-- The axis sub-events of a pointer frame relevant to scrolling, plus the
frame marker that commits the batch. -/
inductive PointerAxisEvent
  | axis (a : Axis) (value : Int)
  | axis_discrete (a : Axis) (steps : Int)
  | frame
deriving DecidableEq, Repr

/-- The scroll amounts one emitted `PointerFrame` batch reports. -/
structure PointerFrameBatch where
  vertScroll : Int
  horizScroll : Int
deriving DecidableEq, Repr

/-- Modelled from the spec: the authoritative scroll amount of one axis at
frame time — the Go handlers `gio_onPointerAxis`, `gio_onPointerAxisDiscrete`
and `gio_onPointerFrame` referenced by `wl_pointer_listener` are not among
the provided sources. Per the spec, if a discrete value is present for an
axis it is preferred over the continuous value. -/
def axisScroll (acc : AxisAccum) : Int :=
  match acc.discrete with
  | some d => d
  | none => acc.continuous

/-- Modelled from the spec: one step of the pointer-frame normalizer.
`axis` adds to the continuous accumulator, `axis_discrete` adds to the
discrete accumulator, and `frame` emits the batch and resets. -/
def stepPointer (f : PointerFrameAccum) :
    PointerAxisEvent → PointerFrameAccum × Option PointerFrameBatch
  | .axis a v =>
      (f.setAxis a { f.getAxis a with continuous := (f.getAxis a).continuous + v }, none)
  | .axis_discrete a s =>
      (f.setAxis a { f.getAxis a with
        discrete := some ((f.getAxis a).discrete.getD 0 + s) }, none)
  | .frame =>
      (emptyPointerFrameAccum, some ⟨axisScroll f.vert, axisScroll f.horiz⟩)

/-- Run the pointer-frame normalizer over a list of sub-events, collecting
the emitted batches. -/
def runPointer (f : PointerFrameAccum) :
    List PointerAxisEvent → PointerFrameAccum × List PointerFrameBatch
  | [] => (f, [])
  | e :: es =>
      let (f', out) := stepPointer f e
      let (f'', outs) := runPointer f' es
      (f'', out.toList ++ outs)

/-! ### Seat capability routing -/

/-- The seat capability bitset: one bit per input device class. -/
structure SeatCaps where
  pointer : Bool
  keyboard : Bool
  touch : Bool
deriving DecidableEq, Repr

/-- Which device objects are currently bound for a seat. -/
structure SeatDevices where
  pointer : Bool
  keyboard : Bool
  touch : Bool
deriving DecidableEq, Repr

inductive DevKind
  | pointer
  | keyboard
  | touch
deriving DecidableEq, Repr

/-- A device lifecycle action the capability router performs: binding the
device and installing its listener, or destroying the device object. -/
inductive SeatAction
  | bindDevice (k : DevKind)
  | destroyDevice (k : DevKind)
deriving DecidableEq, Repr

/-- Modelled from the spec: the per-device diff of the capability router —
the Go handler `gio_onSeatCapabilities` referenced by `wl_seat_listener` is
not among the provided sources. A newly-set bit binds the device, a
newly-cleared bit destroys it, an unchanged bit does nothing. -/
def diffDevice (had has : Bool) (k : DevKind) : List SeatAction :=
  if has && !had then [SeatAction.bindDevice k]
  else if had && !has then [SeatAction.destroyDevice k]
  else []

/-- Modelled from the spec: `onCapabilities` diffs the new bitset against
the currently-bound devices and returns the new device set together with
the bind/destroy actions performed. -/
def onCapabilities (dev : SeatDevices) (new : SeatCaps) :
    SeatDevices × List SeatAction :=
  (⟨new.pointer, new.keyboard, new.touch⟩,
    diffDevice dev.pointer new.pointer .pointer ++
    diffDevice dev.keyboard new.keyboard .keyboard ++
    diffDevice dev.touch new.touch .touch)

/-! ### Generation-checked object handles and stale-event dropping -/

/-- A generation-checked handle to a bound object: arena slot index plus
the generation at which the callback was registered. -/
structure ObjHandle where
  idx : Nat
  gen : Nat
deriving DecidableEq, Repr

/-- Modelled from the spec: destroying the bound object in slot `i` bumps
that slot's generation counter, invalidating every handle minted at an
earlier generation. (The spec keys pending callbacks by an object
generation counter bumped on destruction.) -/
def destroyObject (gens : Nat → Nat) (i : Nat) : Nat → Nat :=
  fun j => if j = i then gens j + 1 else gens j

/-- Modelled from the spec: delivering a protocol event keyed by handle `h`
under generation table `gens`. If the handle's generation matches the
slot's current generation the event dispatches (`act` is applied and the
flag is `true`); otherwise it is a StaleEvent, silently dropped: the state
is unchanged and no dispatch occurs (`false`), with no error surfaced. -/
def deliverEvent {σ : Type} (gens : Nat → Nat) (st : σ) (h : ObjHandle)
    (act : σ → σ) : σ × Bool :=
  if gens h.idx = h.gen then (act st, true) else (st, false)

/-! ### Frame callback scheduling -/

/-- State of the frame-callback scheduler for one surface: the user data of
the outstanding registration, if any. -/
structure FrameCbState where
  outstanding : Option Ptr
deriving DecidableEq, Repr

/-- Outcome of `requestFrameCallback`: either a `wl_surface_frame` request
was sent to the server and the listener registered with the given data, or
the call was rejected locally as a programmer error. -/
inductive FrameReqResult
  | sentToServer (data : Ptr)
  | localError
deriving DecidableEq, Repr

/-- Modelled from the spec: `requestFrameCallback(surface)` is one-shot —
a second request while one is outstanding is a programmer error signaled
locally; nothing is sent to the server. On success the registration data
is the pointer that `gio_wl_callback_add_listener` forwards. -/
def requestFrameCallback (st : FrameCbState) (data : Ptr) :
    FrameCbState × FrameReqResult :=
  match st.outstanding with
  | some _ => (st, .localError)
  | none =>
      ({ outstanding := some (gio_wl_callback_add_listener data) },
        .sentToServer (gio_wl_callback_add_listener data))

/-- Modelled from the spec: `onFrameDone(timestampMs)` fires the callback
exactly once, consuming the registration; with no registration outstanding
nothing fires. Returns the (data, timestamp) pairs of fired callbacks. -/
def onFrameDone (st : FrameCbState) (ts : Nat) :
    FrameCbState × List (Ptr × Nat) :=
  match st.outstanding with
  | some d => ({ outstanding := none }, [(d, ts)])
  | none => (st, [])

/-! ### Android JNI bridge (`os_android.c`) -/

/-- `jint` constants used by `JNI_OnLoad`. -/
def JNI_OK : Int := 0

def JNI_VERSION_1_6 : Int := 65542

/-- The release modes of `ReleaseByteArrayElements`. Mode 0 copies back
and frees, `JNI_COMMIT` copies back without freeing, `JNI_ABORT` frees
without copying back. -/
def JNI_COMMIT : Int := 1

def JNI_ABORT : Int := 2

/-- The `methods` table of `os_android.c:22`: the (name, JNI signature)
pairs registered on `org/gioui/GioView`. -/
def gioViewMethods : List (String × String) :=
  [("runGoMain", "([BLandroid/content/Context;)V"),
   ("onCreateView", "(Lorg/gioui/GioView;)J"),
   ("onDestroyView", "(J)V"),
   ("onStartView", "(J)V"),
   ("onStopView", "(J)V"),
   ("onSurfaceDestroyed", "(J)V"),
   ("onSurfaceChanged", "(JLandroid/view/Surface;)V"),
   ("onConfigurationChanged", "(J)V"),
   ("onWindowInsets", "(JIIII)V"),
   ("onLowMemory", "()V"),
   ("onTouchEvent", "(JIIIFFIJ)V"),
   ("onKeyEvent", "(JIIJ)V"),
   ("onFrameCallback", "(JJ)V"),
   ("onBack", "(J)Z"),
   ("onFocusChange", "(JZ)V")]

/-- The environment `JNI_OnLoad` runs against: the results the Java VM
returns for its three fallible calls. `findClassRet` is `none` when
`FindClass` returns NULL. -/
structure JniVmEnv where
  getEnvRet : Int
  findClassRet : Option Nat
  registerNativesRet : Int
deriving DecidableEq, Repr

/-- The observable steps `JNI_OnLoad` performs, in order. -/
inductive JniStep
  | getEnvCall
  | setJVMCall
  | findClassCall (cls : String)
  | registerNativesCall (count : Nat)
deriving DecidableEq, Repr

/-- `os_android.c:9`: `JNI_OnLoad`. Returns the `jint` result together
with the trace of steps executed: `GetEnv` first, returning -1 on failure;
then `setJVM(vm)`; then `FindClass("org/gioui/GioView")`, returning -1 on
NULL; then `RegisterNatives` with the 15-entry method table, returning -1
on nonzero; otherwise `JNI_VERSION_1_6`. -/
def JNI_OnLoad (w : JniVmEnv) : Int × List JniStep :=
  if w.getEnvRet ≠ JNI_OK then
    (-1, [.getEnvCall])
  else
    match w.findClassRet with
    | none => (-1, [.getEnvCall, .setJVMCall, .findClassCall "org/gioui/GioView"])
    | some _ =>
        if w.registerNativesRet ≠ 0 then
          (-1, [.getEnvCall, .setJVMCall, .findClassCall "org/gioui/GioView",
            .registerNativesCall gioViewMethods.length])
        else
          (JNI_VERSION_1_6, [.getEnvCall, .setJVMCall,
            .findClassCall "org/gioui/GioView",
            .registerNativesCall gioViewMethods.length])

/-- `true` when every class lookup and method registration in the trace is
preceded by a strictly earlier `setJVM` call. -/
def setJVMPrecedesLookups (tr : List JniStep) : Bool :=
  (List.range tr.length).all fun i =>
    match tr.get? i with
    | some (.findClassCall _) | some (.registerNativesCall _) =>
        (List.range i).any fun j => tr.get? j = some .setJVMCall
    | _ => true

/-- JNI semantics of `ReleaseByteArrayElements` on the array contents
(external-interface model): the Java array keeps its old contents under
`JNI_ABORT`, and receives the native copy under mode 0 or `JNI_COMMIT`. -/
def releaseByteArrayElements (arr native : List Int) (mode : Int) :
    List Int :=
  if mode = JNI_ABORT then arr else native

/-- `os_android.c:158`: `gio_jni_GetByteArrayElements` obtains a native
copy of the Java array's contents (`isCopy` passed as NULL). -/
def gio_jni_GetByteArrayElements (arr : List Int) : List Int := arr

/-- `os_android.c:162`: `gio_jni_ReleaseByteArrayElements` always releases
with mode `JNI_ABORT`. Returns the resulting Java array contents. -/
def gio_jni_ReleaseByteArrayElements (arr native : List Int) : List Int :=
  releaseByteArrayElements arr native JNI_ABORT

/-- The scroll amount a batch reports for a given axis. -/
def batchScroll (b : PointerFrameBatch) : Axis → Int
  | .vertical => b.vertScroll
  | .horizontal => b.horizScroll

/-- Projection of the capability bit for a device kind. -/
def capBit (c : SeatCaps) : DevKind → Bool
  | .pointer => c.pointer
  | .keyboard => c.keyboard
  | .touch => c.touch

/-- Projection of the device-exists flag for a device kind. -/
def devBit (d : SeatDevices) : DevKind → Bool
  | .pointer => d.pointer
  | .keyboard => d.keyboard
  | .touch => d.touch

/-! ## Theorems -/

/-- C1, counterexample: the claim that each `gio_*_add_listener` function
forwards a caller-provided per-object data pointer to the underlying
`wl_*_add_listener` call is false. Concretely, `gio_wl_registry_add_listener`
takes no data parameter at all, and on a caller holding the pointer
`addr 1` the data it registers is NULL, not that pointer. -/
theorem registry_shim_does_not_forward_data :
    implTakesData Shim.registry = false ∧
    implForwardedData Shim.registry (Ptr.addr 1) = Ptr.null ∧
    Ptr.addr 1 ≠ Ptr.null := by
  refine ⟨rfl, rfl, ?_⟩
  intro h
  exact Ptr.noConfusion h

/-- C1, amended: only `gio_wl_callback_add_listener` forwards a
caller-supplied per-object user-data pointer to the underlying
add-listener call; every other `gio_*_add_listener` function in
`os_wayland.c` takes no data parameter and registers its listener with
NULL user data. -/
theorem add_listener_data_forwarding (s : Shim) (p : Ptr) :
    implForwardedData s p = (if s = Shim.callback then p else Ptr.null) ∧
    implTakesData s = (s == Shim.callback) := by
  cases s <;> exact ⟨rfl, rfl⟩

/-- C2: the two header declarations of the Wayland shim diverge exactly in
the per-call data pointer — `app/internal/window/os_wayland.h` declares
every `gio_*_add_listener` with a `void *data` parameter, while
`ui/app/os_wayland.h` declares them all without one except
`gio_wl_callback_add_listener` — and the definitions in `os_wayland.c`
conform to the data-less variant, registering NULL user data everywhere
except the frame callback, which forwards its caller-supplied pointer. -/
theorem wayland_shim_header_divergence :
    (∀ s : Shim, headerInternalTakesData s = true) ∧
    (∀ s : Shim, headerUiTakesData s = (s == Shim.callback)) ∧
    (∀ s : Shim, implTakesData s = headerUiTakesData s) ∧
    (∀ s : Shim, ∀ p : Ptr,
      implForwardedData s p = (if implTakesData s then p else Ptr.null)) :=
  ⟨fun _ => rfl,
   fun s => by cases s <;> rfl,
   fun s => by cases s <;> rfl,
   fun s p => by cases s <;> rfl⟩

/-- C3: the xdg_wm_base ping handler answers a ping carrying serial `s`
with exactly one pong request carrying the same serial `s`, performs no
other protocol request, and changes no state; and it is the handler
installed in the `ping` slot of `xdg_wm_base_listener`. -/
theorem ping_emits_single_pong_same_serial (σ : Type) (st : σ) (serial : Nat) :
    (xdg_wm_base_handle_ping σ st serial).1 = st ∧
    (xdg_wm_base_handle_ping σ st serial).2 = [Request.xdg_wm_base_pong serial] ∧
    xdg_wm_base_listener.ping = some Handler.xdg_wm_base_handle_ping_fn :=
  ⟨rfl, rfl, rfl⟩

/-- C4: every callback slot of every listener table installed by the
Wayland shim is populated with a non-NULL handler, with the slot counts
the protocol versions dictate (9 for wl_pointer, 5 for wl_touch, 6 for
wl_keyboard, 6 for zwp_text_input_v3), so no dispatched protocol event
can reach a NULL function pointer. -/
theorem all_listener_slots_populated :
    (∀ s : Shim, (listenerSlots s).all Option.isSome = true) ∧
    (listenerSlots Shim.pointer).length = 9 ∧
    (listenerSlots Shim.touch).length = 5 ∧
    (listenerSlots Shim.keyboard).length = 6 ∧
    (listenerSlots Shim.textInput).length = 6 :=
  ⟨fun s => by cases s <;> rfl, rfl, rfl, rfl, rfl⟩

/-- C5: when the frame marker commits a pointer-frame batch and a discrete
axis value is present for an axis (as when both a discrete and a continuous
value arrived for it during the frame), the emitted batch reports the
discrete value as the scroll amount for that axis, not the continuous one;
in particular a frame in which continuous `c` and discrete `d` both arrive
on axis `a` emits exactly one batch whose scroll for `a` is `d`. -/
theorem discrete_axis_preferred (f : PointerFrameAccum) (a : Axis) (c d : Int)
    (h : (f.getAxis a).discrete = some d) :
    ((stepPointer f PointerAxisEvent.frame).2.map (fun b => batchScroll b a)) = some d ∧
    ((runPointer emptyPointerFrameAccum
        [PointerAxisEvent.axis a c, PointerAxisEvent.axis_discrete a d,
         PointerAxisEvent.frame]).2.map (fun b => batchScroll b a)) = [d] := by
  constructor
  · cases a <;>
      simp_all [stepPointer, batchScroll, axisScroll, PointerFrameAccum.getAxis]
  · cases a <;>
      simp [runPointer, stepPointer, batchScroll, axisScroll,
        PointerFrameAccum.getAxis, PointerFrameAccum.setAxis,
        emptyPointerFrameAccum, emptyAxisAccum]

/-- C5 witness: the spec's concrete instance — a continuous value of -10.0
(-2560 in 1/256 wl_fixed units) and a discrete value of -1 notch arriving
in the same vertical-axis frame yield a batch reporting -1. -/
theorem discrete_axis_preferred_witness :
    (({ vert := { continuous := -2560, discrete := some (-1) },
        horiz := emptyAxisAccum } : PointerFrameAccum).getAxis
          Axis.vertical).discrete = some (-1) ∧
    ((stepPointer
        { vert := { continuous := -2560, discrete := some (-1) },
          horiz := emptyAxisAccum } PointerAxisEvent.frame).2.map
      (fun b => batchScroll b Axis.vertical)) = some (-1) ∧
    ((runPointer emptyPointerFrameAccum
        [PointerAxisEvent.axis Axis.vertical (-2560),
         PointerAxisEvent.axis_discrete Axis.vertical (-1),
         PointerAxisEvent.frame]).2.map
      (fun b => batchScroll b Axis.vertical)) = [-1] := by
  refine ⟨rfl, ?_, ?_⟩
  · exact (discrete_axis_preferred
      { vert := { continuous := -2560, discrete := some (-1) },
        horiz := emptyAxisAccum } Axis.vertical (-2560) (-1) rfl).1
  · exact (discrete_axis_preferred
      { vert := { continuous := -2560, discrete := some (-1) },
        horiz := emptyAxisAccum } Axis.vertical (-2560) (-1) rfl).2

/-- C6: after `onCapabilities` processes a new capability bitset, a device
object exists exactly for each set bit, each newly-set bit performed
exactly one device binding, and each newly-cleared bit performed exactly
one device destruction. -/
theorem capability_router_devices_match_bits (dev : SeatDevices) (new : SeatCaps) :
    (∀ k : DevKind, devBit (onCapabilities dev new).1 k = capBit new k) ∧
    (∀ k : DevKind,
      ((onCapabilities dev new).2.count (SeatAction.bindDevice k) =
        if capBit new k && !devBit dev k then 1 else 0) ∧
      ((onCapabilities dev new).2.count (SeatAction.destroyDevice k) =
        if devBit dev k && !capBit new k then 1 else 0)) := by
  obtain ⟨p, kb, t⟩ := dev
  obtain ⟨p', kb', t'⟩ := new
  constructor
  · intro k
    cases k <;> cases p <;> cases kb <;> cases t <;>
      cases p' <;> cases kb' <;> cases t' <;> rfl
  · intro k
    cases k <;> cases p <;> cases kb <;> cases t <;>
      cases p' <;> cases kb' <;> cases t' <;> exact ⟨rfl, rfl⟩

/-- C7: destroying a bound object bumps its slot's generation, so every
callback handle minted at or before the current generation becomes stale:
a protocol event delivered afterwards through such a handle is dropped —
the state is unchanged and no dispatch occurs, with no error surfaced. -/
theorem destroyed_object_event_dropped {σ : Type} (gens : Nat → Nat)
    (st : σ) (h : ObjHandle) (act : σ → σ) (hv : h.gen ≤ gens h.idx) :
    deliverEvent (destroyObject gens h.idx) st h act = (st, false) := by
  have hne : ¬ destroyObject gens h.idx h.idx = h.gen := by
    unfold destroyObject
    rw [if_pos rfl]
    omega
  simp [deliverEvent, hne]

/-- C7 witness: a handle minted at generation 0 for slot 0 is live
(0 ≤ 0), and after destroying slot 0 an event delivered through it leaves
the state 5 unchanged and is not dispatched. -/
theorem destroyed_object_event_dropped_witness :
    (ObjHandle.mk 0 0).gen ≤ (fun _ => 0 : Nat → Nat) (ObjHandle.mk 0 0).idx ∧
    deliverEvent (destroyObject (fun _ => 0) 0) (5 : Nat) (ObjHandle.mk 0 0)
      (fun n => n + 1) = (5, false) :=
  ⟨Nat.le.refl,
   destroyed_object_event_dropped (fun _ => 0) 5 (ObjHandle.mk 0 0)
     (fun n => n + 1) Nat.le.refl⟩

/-- C8: the frame-callback registration is one-shot — while a registration
is outstanding a second `requestFrameCallback` is rejected locally as a
programmer error with nothing sent to the server and the state unchanged;
a fresh request registers through `gio_wl_callback_add_listener`, which
forwards the caller's data pointer; `onFrameDone` then fires the callback
exactly once and consumes the registration, so a further done event fires
nothing. -/
theorem frame_callback_one_shot (st : FrameCbState) (c d : Ptr) (ts : Nat)
    (h : st.outstanding = some c) :
    requestFrameCallback st d = (st, FrameReqResult.localError) ∧
    requestFrameCallback { outstanding := none } d =
      ({ outstanding := some d }, FrameReqResult.sentToServer d) ∧
    gio_wl_callback_add_listener d = d ∧
    onFrameDone { outstanding := some d } ts = ({ outstanding := none }, [(d, ts)]) ∧
    onFrameDone (onFrameDone { outstanding := some d } ts).1 ts =
      ({ outstanding := none }, []) := by
  obtain ⟨o⟩ := st
  cases h
  exact ⟨rfl, rfl, rfl, rfl, rfl⟩

/-- C8 witness: with the pointer `addr 3` registered and outstanding, a
second request carrying `addr 4` is rejected locally with the state
unchanged, and the done event fires the callback exactly once. -/
theorem frame_callback_one_shot_witness :
    (FrameCbState.mk (some (Ptr.addr 3))).outstanding = some (Ptr.addr 3) ∧
    requestFrameCallback (FrameCbState.mk (some (Ptr.addr 3))) (Ptr.addr 4) =
      (FrameCbState.mk (some (Ptr.addr 3)), FrameReqResult.localError) ∧
    onFrameDone (FrameCbState.mk (some (Ptr.addr 4))) 16 =
      (FrameCbState.mk none, [(Ptr.addr 4, 16)]) :=
  ⟨rfl,
   (frame_callback_one_shot (FrameCbState.mk (some (Ptr.addr 3)))
     (Ptr.addr 3) (Ptr.addr 4) 16 rfl).1,
   (frame_callback_one_shot (FrameCbState.mk (some (Ptr.addr 3)))
     (Ptr.addr 3) (Ptr.addr 4) 16 rfl).2.2.2.1⟩

/-- C9: `JNI_OnLoad` returns -1 exactly when one of its three steps fails
(`GetEnv` not `JNI_OK`, `FindClass` for org/gioui/GioView NULL, or
`RegisterNatives` nonzero); otherwise it returns `JNI_VERSION_1_6` having
registered exactly the 15-entry native-method table on that class; and in
every execution `setJVM` runs before any class lookup or registration. -/
theorem jni_onload_result_and_order (w : JniVmEnv) :
    ((JNI_OnLoad w).1 = -1 ↔
      (w.getEnvRet ≠ JNI_OK ∨ w.findClassRet = none ∨ w.registerNativesRet ≠ 0)) ∧
    ((JNI_OnLoad w).1 ≠ -1 →
      (JNI_OnLoad w).1 = JNI_VERSION_1_6 ∧
      (JNI_OnLoad w).2 = [JniStep.getEnvCall, JniStep.setJVMCall,
        JniStep.findClassCall "org/gioui/GioView",
        JniStep.registerNativesCall 15]) ∧
    gioViewMethods.length = 15 ∧
    setJVMPrecedesLookups (JNI_OnLoad w).2 = true := by
  obtain ⟨g, fc, rn⟩ := w
  by_cases hg : g = (0 : Int)
  · subst hg
    rcases fc with _ | c
    · have heq : JNI_OnLoad ⟨0, none, rn⟩ =
          (-1, [JniStep.getEnvCall, JniStep.setJVMCall,
            JniStep.findClassCall "org/gioui/GioView"]) := by
        simp [JNI_OnLoad, JNI_OK]
      rw [heq]
      refine ⟨?_, ?_, rfl, by decide⟩
      · exact ⟨fun _ => Or.inr (Or.inl rfl), fun _ => rfl⟩
      · intro hne; exact absurd rfl hne
    · by_cases hr : rn = (0 : Int)
      · subst hr
        have heq : JNI_OnLoad ⟨0, some c, 0⟩ =
            (JNI_VERSION_1_6, [JniStep.getEnvCall, JniStep.setJVMCall,
              JniStep.findClassCall "org/gioui/GioView",
              JniStep.registerNativesCall gioViewMethods.length]) := by
          simp [JNI_OnLoad, JNI_OK]
        rw [heq]
        refine ⟨?_, fun _ => ⟨rfl, rfl⟩, rfl, by decide⟩
        constructor
        · intro hbad
          exact absurd hbad (by decide)
        · rintro (h1 | h2 | h3)
          · exact absurd rfl h1
          · exact Option.noConfusion h2
          · exact absurd rfl h3
      · have heq : JNI_OnLoad ⟨0, some c, rn⟩ =
            (-1, [JniStep.getEnvCall, JniStep.setJVMCall,
              JniStep.findClassCall "org/gioui/GioView",
              JniStep.registerNativesCall gioViewMethods.length]) := by
          simp [JNI_OnLoad, JNI_OK, hr]
        rw [heq]
        refine ⟨?_, ?_, rfl, by decide⟩
        · exact ⟨fun _ => Or.inr (Or.inr hr), fun _ => rfl⟩
        · intro hne; exact absurd rfl hne
  · have heq : JNI_OnLoad ⟨g, fc, rn⟩ = (-1, [JniStep.getEnvCall]) := by
      simp [JNI_OnLoad, JNI_OK, hg]
    rw [heq]
    refine ⟨?_, ?_, rfl, by decide⟩
    · exact ⟨fun _ => Or.inl hg, fun _ => rfl⟩
    · intro hne; exact absurd rfl hne

/-- C9 witness: in the all-successful environment (`GetEnv` returns 0, the
class is found, `RegisterNatives` returns 0), `JNI_OnLoad` does not fail,
returns `JNI_VERSION_1_6` and registers the 15 methods after `setJVM`. -/
theorem jni_onload_result_and_order_witness :
    ((JNI_OnLoad ⟨0, some 1, 0⟩).1 = -1 ↔
      ((0 : Int) ≠ JNI_OK ∨ (some 1 : Option Nat) = none ∨ (0 : Int) ≠ 0)) ∧
    ((JNI_OnLoad ⟨0, some 1, 0⟩).1 ≠ -1 ∧
      (JNI_OnLoad ⟨0, some 1, 0⟩).1 = JNI_VERSION_1_6 ∧
      (JNI_OnLoad ⟨0, some 1, 0⟩).2 = [JniStep.getEnvCall, JniStep.setJVMCall,
        JniStep.findClassCall "org/gioui/GioView",
        JniStep.registerNativesCall 15]) ∧
    setJVMPrecedesLookups (JNI_OnLoad ⟨0, some 1, 0⟩).2 = true :=
  ⟨(jni_onload_result_and_order ⟨0, some 1, 0⟩).1,
   ⟨by decide,
    (jni_onload_result_and_order ⟨0, some 1, 0⟩).2.1 (by decide)⟩,
   (jni_onload_result_and_order ⟨0, some 1, 0⟩).2.2.2⟩

/-- C10: `gio_jni_ReleaseByteArrayElements` always releases with mode
`JNI_ABORT`, so the Java array's contents are left unchanged for every
call — modifications in the native copy are discarded, never copied back —
whereas a commit-mode release would have written the native copy back. -/
theorem release_byte_array_always_aborts (arr native : List Int) :
    gio_jni_ReleaseByteArrayElements arr native =
      releaseByteArrayElements arr native JNI_ABORT ∧
    gio_jni_ReleaseByteArrayElements arr native = arr ∧
    releaseByteArrayElements arr native JNI_COMMIT = native := by
  refine ⟨rfl, ?_, ?_⟩
  · simp [gio_jni_ReleaseByteArrayElements, releaseByteArrayElements]
  · simp [releaseByteArrayElements, JNI_COMMIT, JNI_ABORT]
